import Mathlib

/-!
Verification of the runen spiking-neural-network runtime.

This file gives a shallow embedding, in Lean 4, of the parts of the
runen repository that the specification talks about, and proves or
refutes the spec's statements against that embedding.

Conventions of the embedding:
* Rust machine integers (`i16`, `u8`, `usize`) are modelled as `Int` /
  `Nat`; every concrete value appearing in a theorem below is far away
  from the corresponding machine range, so wrap-around is immaterial.
* Interior mutability (`RefCell` / `RwLock`) becomes explicit state
  passing: a method `fn receive(&mut self, …)` becomes a Lean function
  `State → Args → State × Output`.
* Fallible Rust functions returning `Result<T, Box<dyn Error>>` become
  `Except RnnError T`.
* `HashSet<String>` becomes `Finset String`; `BTreeMap` becomes an
  association list whose key-order-dependent operations (`keys().last()`)
  are modelled by folding with the lexicographic string order, which on
  the ASCII identifiers used by the code agrees with Rust's `Ord` on
  `String`.
-/

namespace Runen

/-! ## Error type

The error variants used by the code under `src/rnn`.  The enum
declaration that `layouts/neural_network.rs` compiles against is not in
the tree (the checked-in `rnn_error.rs` belongs to an older iteration);
the variant names below are exactly the ones constructed by the source
files cited in this development. -/

/-- Error variants constructed by the embedded source functions. -/
inductive RnnError where
  | NotSupportedArgValue : RnnError
  | ClosedLoop : RnnError
  | PortBusy (id : String) : RnnError
  | DendriteNotFound (port : Nat) : RnnError
  | NeuronNotFound (id : String) : RnnError
  | NeuronAlreadyExists (id : String) : RnnError
  | PortNotFound (port : Nat) : RnnError
  | IncorrectPortType : RnnError
  | PortAlreadyFree : RnnError
deriving DecidableEq, Repr

/-! ## Synapse (src/rnn/neural/synapse.rs) -/

/-- State of `Synapse` (src/rnn/neural/synapse.rs, lines 23-30): the
configuration fields `max_capacity` and `regeneration_amount` and the
runtime field `current_capacity`.  The id / container / collector
plumbing carries no signal-value semantics and is omitted. -/
structure Synapse where
  max_capacity : Int
  current_capacity : Int
  regeneration_amount : Int
deriving DecidableEq, Repr

/-- `Synapse::receive` (src/rnn/neural/synapse.rs, lines 51-65),
translated line by line:
```
let signal = max(signal, 0);
let new_signal = min(signal, *current_capacity);
*current_capacity -= new_signal;
*current_capacity += min(*current_capacity + regeneration_amount, max_capacity);
self.send(new_signal);
```
Returns the updated synapse and the value handed to `send` (the
delivered signal). -/
def Synapse.receive (s : Synapse) (signal : Int) : Synapse × Int :=
  let clamped := max signal 0
  let new_signal := min clamped s.current_capacity
  let cap1 := s.current_capacity - new_signal
  let cap2 := cap1 + min (cap1 + s.regeneration_amount) s.max_capacity
  ({ s with current_capacity := cap2 }, new_signal)

/-- The capacity update stated by the spec (§4.1):
`current_capacity ← min(current_capacity − delivered + regeneration,
capacity_max)`.  Kept as a separate definition so that the code's update
can be compared against it. -/
def specSynapseCapacity (c d r n : Int) : Int :=
  min (c - d + r) n

/-- The synapse capacity invariant stated by the spec (§3, §8):
`0 ≤ current_capacity ≤ capacity_max`. -/
def synapseInvariant (s : Synapse) : Prop :=
  0 ≤ s.current_capacity ∧ s.current_capacity ≤ s.max_capacity

instance (s : Synapse) : Decidable (synapseInvariant s) := by
  unfold synapseInvariant; infer_instance

/-! ## Axon (src/rnn/neural/axon.rs) -/

/-- `Axon::receive` / `Axon::send` (src/rnn/neural/axon.rs, lines
51-71): `receive` clamps the incoming value to `max(signal, 0)` and
`send` delivers that clamped value to every connected acceptor.  The
result lists the (acceptor, delivered value) pairs produced by the
`send` loop. -/
def axonDeliveries (acceptors : List String) (signal : Int) : List (String × Int) :=
  acceptors.map (fun a => (a, max signal 0))

/-! ## Input configuration (src/rnn/common/input_cfg.rs) -/

/-- `InputCfg` (src/rnn/common/input_cfg.rs, lines 8-18): `capacity_max`
and `regeneration` are `u8`, `weight` is `i16`. -/
structure InputCfg where
  capacity_max : Nat
  regeneration : Nat
  weight : Int
deriving DecidableEq, Repr

/-- `InputCfg::new` (src/rnn/common/input_cfg.rs, lines 21-31): fails
with `NotSupportedArgValue` iff `regeneration > capacity_max`. -/
def InputCfg.new (capacity_max regeneration : Nat) (weight : Int) :
    Except RnnError InputCfg :=
  if regeneration > capacity_max then
    .error .NotSupportedArgValue
  else
    .ok { capacity_max := capacity_max, regeneration := regeneration, weight := weight }

/-! ## Neurosoma (src/rnn/neural/neurosoma.rs) -/

/-- State of `Neurosoma` (src/rnn/neural/neurosoma.rs, lines 24-36):
the set of connected collectors, the set of collectors that reported a
signal since the last reset, and the accumulator (`i16`, initialised to
1, the neuron's resting level). -/
structure Neurosoma where
  connected_collectors : Finset String
  reported_collectors : Finset String
  accumulator : Int
deriving DecidableEq

/-- `Neurosoma::reset` (src/rnn/neural/neurosoma.rs, lines 64-71):
computes `max(accumulator, 0)` as the new outgoing signal, sets the
accumulator back to 1 and clears the reported set. -/
def Neurosoma.reset (n : Neurosoma) : Neurosoma × Int :=
  (⟨n.connected_collectors, ∅, 1⟩, max n.accumulator 0)

/-- `Neurosoma::register_signal` (src/rnn/neural/neurosoma.rs, lines
73-76): adds the signal to the accumulator and records the source. -/
def Neurosoma.registerSignal (n : Neurosoma) (signal : Int) (sourceId : String) : Neurosoma :=
  ⟨n.connected_collectors, insert sourceId n.reported_collectors, n.accumulator + signal⟩

/-- `Neurosoma::count_referrals` (src/rnn/neural/neurosoma.rs, lines
60-62): the number of currently connected collectors. -/
def Neurosoma.countReferrals (n : Neurosoma) : Nat :=
  n.connected_collectors.card

/-- `Neurosoma::receive` (src/rnn/neural/neurosoma.rs, lines 80-94),
translated clause by clause.  The second component is the signal handed
to `send`, i.e. the emitted pulse; `none` means no emission. -/
def Neurosoma.receive (n : Neurosoma) (signal : Int) (collectorId : String) :
    Neurosoma × Option Int :=
  if collectorId ∈ n.reported_collectors then
    let r := n.reset
    (r.1.registerSignal signal collectorId, some r.2)
  else
    let n1 := n.registerSignal signal collectorId
    if n1.reported_collectors.card ≥ n1.countReferrals then
      let r := n1.reset
      (r.1, some r.2)
    else
      (n1, none)

/-- Spec-side state of the firing rule of §4.4: accumulator, hit
register and reset counter. -/
structure NeurosomaSpecState where
  accumulator : Int
  hit_register : Finset String
  reset_counter : Nat
deriving DecidableEq

/-- The firing rule exactly as written in §4.4 of the spec, kept
separate from the code translation so the two can be compared:
```
if p ∈ hit_register:
    emit_value ← max(accumulator, 0)
    accumulator ← w_s + bias
    reset_counter += 1
    hit_register ← {p}
    fire(emit_value)
else:
    accumulator ← accumulator + w_s
    hit_register ← hit_register ∪ {p}
    if |hit_register| ≥ |connected_ports(input_map)|:
        emit_value ← max(accumulator, 0)
        accumulator ← bias
        reset_counter += 1
        hit_register ← ∅
        fire(emit_value)
```
-/
def neurosomaSpecStep (bias : Int) (connectedPorts : Finset String)
    (t : NeurosomaSpecState) (w : Int) (p : String) :
    NeurosomaSpecState × Option Int :=
  if p ∈ t.hit_register then
    (⟨w + bias, {p}, t.reset_counter + 1⟩, some (max t.accumulator 0))
  else
    let acc := t.accumulator + w
    let hits := insert p t.hit_register
    if hits.card ≥ connectedPorts.card then
      (⟨bias, ∅, t.reset_counter + 1⟩, some (max acc 0))
    else
      (⟨acc, hits, t.reset_counter⟩, none)

/-! ## Network model (src/rnn/layouts/neural_network.rs)

`NeuralNetwork` keeps its neurons in a `BTreeMap<String, Arc<Neuron>>`
and its input ports in a `BTreeMap<usize, Arc<RwLock<PortCore>>>`.  Both
maps are modelled as association lists with unique keys; the only
order-sensitive operation, `keys().last()`, is modelled by taking the
maximum key under the lexicographic string order. -/

/-- One neuron input: its connection state (`connected` holds the id of
the upstream party, as in the dendrite state of `Neuron`) and its
`InputCfg`. -/
structure Dendrite where
  connected : Option String
  config : InputCfg
deriving DecidableEq, Repr

/-- The per-neuron state the network operations act on: id, bias and the
ordered list of dendrites (index = input port). -/
structure NeuronState where
  id : String
  bias : Int
  dendrites : List Dendrite
deriving DecidableEq, Repr

/-- `PortCore` (src/rnn/layouts/neural_network.rs, lines 65-74) without
the channel handle: the port id and its hit counter. -/
structure PortCore where
  id : String
  signal_hits : Nat
deriving DecidableEq, Repr

/-- The `NeuralNetwork` fields acted on by the embedded operations:
the network id, the neuron registry and the input interface. -/
structure NetState where
  netId : String
  neurons : List (String × NeuronState)
  input_interface : List (Nat × PortCore)
deriving DecidableEq, Repr

/-- Lookup in a string-keyed association list (`BTreeMap::get`). -/
def alistGet (l : List (String × α)) (k : String) : Option α :=
  (l.find? (fun e => e.1 == k)).map (·.2)

/-- Replace the value stored under an existing key. -/
def alistSet (l : List (String × α)) (k : String) (v : α) : List (String × α) :=
  l.map (fun e => if e.1 == k then (k, v) else e)

/-- Lookup in a nat-keyed association list (`BTreeMap::get`). -/
def natGet (l : List (Nat × α)) (k : Nat) : Option α :=
  (l.find? (fun e => e.1 == k)).map (·.2)

/-- Modelled from the spec: `Neuron::connect(src_id, port, subscription)`
(§4.6).  The async implementation is present in the tree only as
commented-out code (src/rnn/neural/neuron.rs, lines 246-312), so the
behaviour is taken from the spec's operation table and that comment:
the port must exist (else the port-not-found error, `DendriteNotFound`
in the commented code) and must not already be connected (else
`PortBusy`); on success the port records the upstream source id and a
receiver task is (re)installed for it. -/
def NeuronState.connect (n : NeuronState) (srcId : String) (port : Nat) :
    Except RnnError NeuronState :=
  match n.dendrites.get? port with
  | none => .error (.DendriteNotFound port)
  | some d =>
    if d.connected.isSome then
      .error (.PortBusy n.id)
    else
      .ok { n with dendrites := n.dendrites.set port { d with connected := some srcId } }

/-- The number of dendrites of `n` already connected to `n` itself
(`self_connected_dendrites_count` in src/rnn/neural/neuron.rs, lines
230-238). -/
def NeuronState.selfConnectedCount (n : NeuronState) : Nat :=
  (n.dendrites.filter (fun d => d.connected = some n.id)).length

/-- `Neuron::link_to(party, port)` (src/rnn/neural/neuron.rs, lines
225-244; the implementation is commented out in the tree, and is the
code the spec's §4.6 `link_to` row was written from): when the party is
the neuron itself, reject with `ClosedLoop` unless it has at least two
dendrites and no dendrite already connected to itself; then delegate to
the party's `connect` with this neuron's id as source.  Returns the
updated party state. -/
def linkTo (self party : NeuronState) (port : Nat) : Except RnnError NeuronState :=
  if party.id = self.id then
    if self.dendrites.length < 2 ∨ self.selfConnectedCount > 0 then
      .error .ClosedLoop
    else
      party.connect self.id port
  else
    party.connect self.id port

/-- `NeuralNetwork::connect_neurons` (src/rnn/layouts/neural_network.rs,
lines 259-278): look up both neurons (`NeuronNotFound` if either is
missing), then delegate to the source's `link_to` on the destination. -/
def connectNeurons (s : NetState) (srcId dstId : String) (dstPort : Nat) :
    NetState × Except RnnError Unit :=
  match alistGet s.neurons srcId with
  | none => (s, .error (.NeuronNotFound srcId))
  | some src =>
    match alistGet s.neurons dstId with
    | none => (s, .error (.NeuronNotFound dstId))
    | some dst =>
      match linkTo src dst dstPort with
      | .error e => (s, .error e)
      | .ok dst2 => ({ s with neurons := alistSet s.neurons dstId dst2 }, .ok ())

/-- `NeuralNetwork::setup_input` (src/rnn/layouts/neural_network.rs,
lines 317-346), preserving the source's order of effects: look up the
neuron (`NeuronNotFound` if missing), connect the neuron's port to the
fresh channel (propagating any error with `?`), and only then check the
input-interface entry: occupied means `PortBusy`, vacant means the port
core is inserted.  Note that the neuron-side connection performed before
the entry check is kept even when the check fails. -/
def setupInput (s : NetState) (networkPort : Nat) (neuronId : String) (neuronPort : Nat) :
    NetState × Except RnnError Unit :=
  match alistGet s.neurons neuronId with
  | none => (s, .error (.NeuronNotFound neuronId))
  | some n =>
    let srcId := s.netId ++ "I" ++ toString networkPort
    match n.connect srcId neuronPort with
    | .error e => (s, .error e)
    | .ok n2 =>
      let s2 : NetState := { s with neurons := alistSet s.neurons neuronId n2 }
      match natGet s2.input_interface networkPort with
      | some _ => (s2, .error (.PortBusy srcId))
      | none =>
        ({ s2 with input_interface := s2.input_interface ++ [(networkPort, ⟨srcId, 0⟩)] },
         .ok ())

/-! ## Neuron id allocation (src/rnn/layouts/neural_network.rs) -/

/-- Decimal digits to a number (`str::parse::<usize>` on a digit
string). -/
def digitsToNat (ds : List Char) : Nat :=
  ds.foldl (fun n c => 10 * n + (c.toNat - 48)) 0

/-- The regex `^M\d+Z(\d+)$` of `get_available_neuron_id`
(src/rnn/layouts/neural_network.rs, line 235): match `M`, one or more
digits, `Z`, then capture the trailing digits.  Returns the captured
numeric suffix, or `none` when the id does not match. -/
def parseMZSuffix (s : String) : Option Nat :=
  match s.data with
  | 'M' :: rest =>
    match rest.takeWhile Char.isDigit, rest.dropWhile Char.isDigit with
    | [], _ => none
    | _ :: _, 'Z' :: ds =>
      if ds ≠ [] ∧ ds.all Char.isDigit then some (digitsToNat ds) else none
    | _ :: _, _ => none
  | _ => none

/-- Rust's `Ord` on `String` compares byte sequences lexicographically;
on the ASCII identifiers used here that is lexicographic comparison of
the code points. -/
def listLtb : List Char → List Char → Bool
  | _, [] => false
  | [], _ :: _ => true
  | a :: as, b :: bs =>
    if a.toNat < b.toNat then true
    else if b.toNat < a.toNat then false
    else listLtb as bs

/-- Strict `<` of Rust's `Ord` on `String` (byte-wise lexicographic). -/
def strLtb (a b : String) : Bool :=
  listLtb a.data b.data

/-- The greatest key of the registry: `BTreeMap::keys().last()` iterates
in ascending lexicographic order, so the last key is the maximum under
the string order. -/
def maxKey (keys : List String) : Option String :=
  keys.foldl
    (fun acc k =>
      match acc with
      | none => some k
      | some m => if strLtb m k then some k else some m)
    none

/-- `NeuralNetwork::get_available_neuron_id`
(src/rnn/layouts/neural_network.rs, lines 228-245): take the last
(greatest) registry key; an empty registry or an empty-string key gives
0; otherwise apply the regex, unwrap the capture and return the suffix
plus one.  The `unwrap` on a non-matching key panics in Rust; that path
is modelled as `none`. -/
def getAvailableNeuronId (keys : List String) : Option Nat :=
  match maxKey keys with
  | none => some 0
  | some id =>
    if id = "" then some 0
    else
      match parseMZSuffix id with
      | none => none
      | some k => some (k + 1)

/-- The allocation rule as the spec states it (§4.9 item 1, the claim's
wording): one plus the maximum numeric suffix over all currently
registered neuron ids, or 0 for an empty registry.  Kept separate from
the code translation so the two can be compared. -/
def specNextNeuronSuffix (keys : List String) : Nat :=
  if keys.isEmpty then 0 else (keys.filterMap parseMZSuffix).foldl max 0 + 1

/-- The input-config defaulting inside `NeuralNetwork::create_neuron`
(src/rnn/layouts/neural_network.rs, lines 204-212): an empty list is
replaced by the single config `{capacity_max: 1, regeneration: 1,
weight: 1}`; a non-empty list is used as given. -/
def effectiveInputConfigs (input_configs : List InputCfg) : List InputCfg :=
  if input_configs.isEmpty then [⟨1, 1, 1⟩] else input_configs

/-- `NeuralNetwork::create_neuron` (src/rnn/layouts/neural_network.rs,
lines 190-226): build the id `{net_id}Z{get_available_neuron_id()}`,
default the input configs, then insert into the registry —
`Entry::Occupied` yields `NeuronAlreadyExists`.  The dendrites of the
built neuron are one per input config (`Neuron::build` consumes the
`NeuronCfg`; modelled from the spec's §4.6 `configure` row, the build
implementation being absent from the tree).  `none` models the panic
path of `get_available_neuron_id`. -/
def createNeuron (s : NetState) (bias : Int) (input_configs : List InputCfg) :
    Option (NetState × Except RnnError NeuronState) :=
  (getAvailableNeuronId (s.neurons.map (·.1))).map fun avail =>
    let newId := s.netId ++ "Z" ++ toString avail
    let cfgs := effectiveInputConfigs input_configs
    let neuron : NeuronState := ⟨newId, bias, cfgs.map (fun c => ⟨none, c⟩)⟩
    if (s.neurons.map (·.1)).contains newId then
      (s, .error (.NeuronAlreadyExists newId))
    else
      ({ s with neurons := s.neurons ++ [(newId, neuron)] }, .ok neuron)

/-- A freshly constructed network: `NeuralNetwork::new` generates the id
`M0` for the first network of the process
(`gen_id_by_spec_type("", 0, Network)`, src/rnn/common/utils.rs) and
starts with empty registries. -/
def freshNet : NetState :=
  ⟨"M0", [], []⟩

/-- Repeatedly call `create_neuron(bias := 1, input_configs := [])`,
stopping (with `none`) on any error or panic. -/
def createSeq (s : NetState) : Nat → Option NetState
  | 0 => some s
  | k + 1 =>
    (createNeuron s 1 []).bind fun r =>
      match r.2 with
      | .ok _ => createSeq r.1 k
      | .error _ => none

/-! ## Topology configuration serialization
(src/rnn/common/network_cfg.rs, src/rnn/common/input_cfg.rs)

`NetworkCfg` (src/rnn/common/network_cfg.rs, lines 34-43) derives
serde's `Serialize`/`Deserialize`.  serde's derived impls map a value
into serde's data model — numbers, strings, sequences and maps, with
struct fields in declaration order and externally tagged enum variants —
and `serde_json` / `serde_yaml` print that data-model value
deterministically.  The data model is embedded as `JVal`; the derived
encoders and decoders for the config structures are written out below,
and the two textual representations are deterministic printing functions
of the encoded `JVal`. -/

/-- serde's data-model values, as far as the topology configs need it. -/
inductive JVal where
  | num (n : Int) : JVal
  | str (s : String) : JVal
  | arr (xs : List JVal) : JVal
  | obj (fields : List (String × JVal)) : JVal

/-- The per-neuron entry of the topology document: `{id, bias,
input_configs}` (the schema of §6, i.e. the `NeuronCfg` shape consumed
by src/rnn/layouts/neural_network.rs and kept as `OldNeuronCfg` in
src/rnn/common/network_cfg.rs, lines 23-31). -/
structure NeuronCfg where
  id : String
  bias : Int
  input_configs : List InputCfg
deriving DecidableEq, Repr

/-- `LinkCfg` (src/rnn/common/network_cfg.rs, lines 6-21). -/
inductive LinkCfg where
  | Input (input_port : Nat) (dst_id : String) (dst_synapse_idx : Nat) : LinkCfg
  | Inner (src_id : String) (dst_id : String) (dst_synapse_idx : Nat) : LinkCfg
  | Output (src_id : String) (output_port : Nat) : LinkCfg
deriving DecidableEq, Repr

/-- `NetworkCfg` (src/rnn/common/network_cfg.rs, lines 34-43): the
document fields `inputs`, `outputs`, `neurons`, `links`. -/
structure NetworkCfg where
  inputs : Nat
  outputs : Nat
  neurons : List NeuronCfg
  links : List LinkCfg
deriving DecidableEq, Repr

/-- Derived `Serialize` for `InputCfg`: a map with the fields in
declaration order. -/
def encodeInputCfg (c : InputCfg) : JVal :=
  .obj [("capacity_max", .num c.capacity_max),
        ("regeneration", .num c.regeneration),
        ("weight", .num c.weight)]

/-- Derived `Serialize` for the neuron entry. -/
def encodeNeuronCfg (c : NeuronCfg) : JVal :=
  .obj [("id", .str c.id),
        ("bias", .num c.bias),
        ("input_configs", .arr (c.input_configs.map encodeInputCfg))]

/-- Derived `Serialize` for `LinkCfg`: externally tagged variants. -/
def encodeLinkCfg : LinkCfg → JVal
  | .Input input_port dst_id dst_synapse_idx =>
    .obj [("Input", .obj [("input_port", .num input_port),
                          ("dst_id", .str dst_id),
                          ("dst_synapse_idx", .num dst_synapse_idx)])]
  | .Inner src_id dst_id dst_synapse_idx =>
    .obj [("Inner", .obj [("src_id", .str src_id),
                          ("dst_id", .str dst_id),
                          ("dst_synapse_idx", .num dst_synapse_idx)])]
  | .Output src_id output_port =>
    .obj [("Output", .obj [("src_id", .str src_id),
                           ("output_port", .num output_port)])]

/-- Derived `Serialize` for `NetworkCfg`. -/
def encodeNetworkCfg (c : NetworkCfg) : JVal :=
  .obj [("inputs", .num c.inputs),
        ("outputs", .num c.outputs),
        ("neurons", .arr (c.neurons.map encodeNeuronCfg)),
        ("links", .arr (c.links.map encodeLinkCfg))]

/-- Field access in a serialized map (derived `Deserialize` resolves
fields by name). -/
def jGet (fields : List (String × JVal)) (k : String) : Option JVal :=
  (fields.find? (fun f => f.1 == k)).map (·.2)

/-- Read a number. -/
def decodeNum : JVal → Option Int
  | .num n => some n
  | _ => none

/-- Read an unsigned number (`usize` / `u8` fields reject negative
input). -/
def decodeNat : JVal → Option Nat
  | .num (.ofNat n) => some n
  | _ => none

/-- Read a string. -/
def decodeStr : JVal → Option String
  | .str s => some s
  | _ => none

/-- Read a sequence, element by element. -/
def decodeArr (dec : JVal → Option α) : JVal → Option (List α)
  | .arr xs => xs.mapM dec
  | _ => none

/-- Derived `Deserialize` for `InputCfg`. -/
def decodeInputCfg (v : JVal) : Option InputCfg :=
  match v with
  | .obj fs => do
    let c ← jGet fs "capacity_max" >>= decodeNat
    let r ← jGet fs "regeneration" >>= decodeNat
    let w ← jGet fs "weight" >>= decodeNum
    pure ⟨c, r, w⟩
  | _ => none

/-- Derived `Deserialize` for the neuron entry. -/
def decodeNeuronCfg (v : JVal) : Option NeuronCfg :=
  match v with
  | .obj fs => do
    let i ← jGet fs "id" >>= decodeStr
    let b ← jGet fs "bias" >>= decodeNum
    let ics ← jGet fs "input_configs" >>= decodeArr decodeInputCfg
    pure ⟨i, b, ics⟩
  | _ => none

/-- Derived `Deserialize` for `LinkCfg`. -/
def decodeLinkCfg (v : JVal) : Option LinkCfg :=
  match v with
  | .obj [("Input", .obj fs)] => do
    let p ← jGet fs "input_port" >>= decodeNat
    let d ← jGet fs "dst_id" >>= decodeStr
    let k ← jGet fs "dst_synapse_idx" >>= decodeNat
    pure (.Input p d k)
  | .obj [("Inner", .obj fs)] => do
    let sr ← jGet fs "src_id" >>= decodeStr
    let d ← jGet fs "dst_id" >>= decodeStr
    let k ← jGet fs "dst_synapse_idx" >>= decodeNat
    pure (.Inner sr d k)
  | .obj [("Output", .obj fs)] => do
    let sr ← jGet fs "src_id" >>= decodeStr
    let p ← jGet fs "output_port" >>= decodeNat
    pure (.Output sr p)
  | _ => none

/-- Derived `Deserialize` for `NetworkCfg`. -/
def decodeNetworkCfg (v : JVal) : Option NetworkCfg :=
  match v with
  | .obj fs => do
    let i ← jGet fs "inputs" >>= decodeNat
    let o ← jGet fs "outputs" >>= decodeNat
    let ns ← jGet fs "neurons" >>= decodeArr decodeNeuronCfg
    let ls ← jGet fs "links" >>= decodeArr decodeLinkCfg
    pure ⟨i, o, ns, ls⟩
  | _ => none

/-- Escape a character for a JSON string literal. -/
def escapeJsonChar (c : Char) : String :=
  if c = '"' then "\\\"" else if c = '\\' then "\\\\" else String.singleton c

/-- Escape a whole string for a JSON string literal. -/
def escapeJson (s : String) : String :=
  String.join (s.data.map escapeJsonChar)

mutual

/-- The deterministic JSON printing of a data-model value
(`serde_json::to_string`): equal values print to equal byte strings. -/
def jsonPrint : JVal → String
  | .num n => toString n
  | .str s => "\"" ++ escapeJson s ++ "\""
  | .arr xs => "[" ++ jsonPrintItems xs ++ "]"
  | .obj fs => "\x7b" ++ jsonPrintFields fs ++ "\x7d"

/-- Comma-separated JSON array items. -/
def jsonPrintItems : List JVal → String
  | [] => ""
  | [x] => jsonPrint x
  | x :: xs => jsonPrint x ++ "," ++ jsonPrintItems xs

/-- Comma-separated JSON object fields. -/
def jsonPrintFields : List (String × JVal) → String
  | [] => ""
  | [f] => "\"" ++ escapeJson f.1 ++ "\":" ++ jsonPrint f.2
  | f :: fs => "\"" ++ escapeJson f.1 ++ "\":" ++ jsonPrint f.2 ++ "," ++ jsonPrintFields fs

end

mutual

/-- The deterministic YAML printing of a data-model value
(`serde_yaml::to_string` at the interface level, rendered in flow
style): equal values print to equal byte strings, which is the only
property the round-trip theorem uses. -/
def yamlPrint : JVal → String
  | .num n => toString n
  | .str s => escapeJson s
  | .arr xs => "[" ++ yamlPrintItems xs ++ "]"
  | .obj fs => "\x7b" ++ yamlPrintFields fs ++ "\x7d"

/-- Comma-separated YAML flow-sequence items. -/
def yamlPrintItems : List JVal → String
  | [] => ""
  | [x] => yamlPrint x
  | x :: xs => yamlPrint x ++ ", " ++ yamlPrintItems xs

/-- Comma-separated YAML flow-mapping fields. -/
def yamlPrintFields : List (String × JVal) → String
  | [] => ""
  | [f] => f.1 ++ ": " ++ yamlPrint f.2
  | f :: fs => f.1 ++ ": " ++ yamlPrint f.2 ++ ", " ++ yamlPrintFields fs

end

/-! ## Theorems -/

/-- Decidable equality of `Except` results, used to evaluate the
embedded operations on concrete inputs. -/
instance {ε α : Type} [DecidableEq ε] [DecidableEq α] : DecidableEq (Except ε α)
  | .error a, .error b =>
    if h : a = b then .isTrue (congrArg Except.error h)
    else .isFalse fun hh => h (Except.error.inj hh)
  | .error _, .ok _ => .isFalse fun hh => Except.noConfusion hh
  | .ok _, .error _ => .isFalse fun hh => Except.noConfusion hh
  | .ok a, .ok b =>
    if h : a = b then .isTrue (congrArg Except.ok h)
    else .isFalse fun hh => h (Except.ok.inj hh)

/-- C2.  The claim says one receive step delivers
`min(max(x, 0), c)` — which the code does — and leaves the capacity at
`min(c − delivered + r, N)` — which the code does not: for the default
synapse (`capacity_max = 1`, `regeneration = 1`, `current_capacity = 1`)
an incoming intensity 0 delivers 0 but leaves `current_capacity = 2`,
while the spec's update yields 1.  The code computes
`cap ← (c − d) + min((c − d) + r, N)` (a `+=` where the clamped
assignment `cap = min(cap + r, N)` was evidently intended), which
exceeds `capacity_max` whenever the capacity was not fully drained. -/
theorem synapse_receive_capacity_divergence :
    Synapse.receive ⟨1, 1, 1⟩ 0 = (⟨1, 2, 1⟩, 0) ∧
    specSynapseCapacity 1 0 1 1 = 1 := by
  decide

/-- C3.  The claim states the invariant
`0 ≤ current_capacity ≤ capacity_max` for every synapse with
`capacity_max ≥ 1` and `0 ≤ regeneration ≤ capacity_max`.  The initial
state satisfies it, but a single receive step of intensity −3 (the
input of the repository's own `should_limit_input_signal_by_max_capacity`
test) on the default synapse already violates the upper bound: the
capacity becomes 2 with `capacity_max = 1`. -/
theorem synapse_invariant_violated :
    synapseInvariant ⟨1, 1, 1⟩ ∧
    ¬ synapseInvariant (Synapse.receive ⟨1, 1, 1⟩ (-3)).1 := by
  decide

/-- C4 counterexample.  The claim says `fire(v)` with `v ≤ 0` delivers
nothing to any subscriber.  In `Axon::receive` a value of −5 is clamped
to 0 and delivered to every connected acceptor: the delivery list is
not empty, and the subscriber observes a zero-intensity pulse. -/
theorem axon_suppression_counterexample :
    axonDeliveries ["M0Z1A0"] (-5) = [("M0Z1A0", 0)] ∧
    axonDeliveries ["M0Z1A0"] (-5) ≠ [] := by
  decide

/-- C4 amended.  `Axon::receive` clamps the fired value to
`max(v, 0)` and broadcasts the clamped value to every acceptor: no
delivered pulse is ever negative, a positive `v` is delivered exactly
to every subscriber, and a non-positive `v` is delivered as a
zero-intensity pulse to every subscriber (there is no suppression and
no `SignalSuppressed` outcome in this code path). -/
theorem axon_clamped_fanout (acceptors : List String) (v : Int) :
    (∀ d ∈ axonDeliveries acceptors v, 0 ≤ d.2) ∧
    (0 < v → axonDeliveries acceptors v = acceptors.map (fun a => (a, v))) ∧
    (v ≤ 0 → axonDeliveries acceptors v = acceptors.map (fun a => (a, 0))) := by
  refine ⟨?_, ?_, ?_⟩
  · intro d hd
    simp only [axonDeliveries, List.mem_map] at hd
    obtain ⟨a, -, rfl⟩ := hd
    exact le_max_right v 0
  · intro hv
    simp only [axonDeliveries]
    exact List.map_congr_left fun a _ => by rw [max_eq_left hv.le]
  · intro hv
    simp only [axonDeliveries]
    exact List.map_congr_left fun a _ => by rw [max_eq_right hv]

/-- C4 witness: the amended theorem applied to one subscriber and the
fired value 5. -/
theorem axon_clamped_fanout_witness :
    axonDeliveries ["M0Z1A0"] 5 = [("M0Z1A0", 5)] :=
  (axon_clamped_fanout ["M0Z1A0"] 5).2.1 (by decide)

/-- C8.  `InputCfg::new` fails (with `NotSupportedArgValue`) exactly
when `regeneration > capacity_max`, and otherwise returns the
configuration carrying exactly the given `capacity_max`, `regeneration`
and `weight`. -/
theorem input_cfg_new_validates (c r : Nat) (w : Int) :
    ((∃ e, InputCfg.new c r w = .error e) ↔ c < r) ∧
    (r ≤ c → InputCfg.new c r w = .ok ⟨c, r, w⟩) := by
  by_cases h : c < r
  · refine ⟨⟨fun _ => h, fun _ => ⟨.NotSupportedArgValue, ?_⟩⟩,
      fun hle => absurd h (not_lt.mpr hle)⟩
    simp [InputCfg.new, h]
  · refine ⟨⟨fun ⟨e, he⟩ => ?_, fun hlt => absurd hlt h⟩, fun _ => ?_⟩
    · simp [InputCfg.new, h] at he
    · simp [InputCfg.new, h]

/-- C8 witness: the validating theorem applied to the repository's own
test input `(2, 1, −1)`. -/
theorem input_cfg_new_validates_witness :
    InputCfg.new 2 1 (-1) = .ok ⟨2, 1, -1⟩ :=
  (input_cfg_new_validates 2 1 (-1)).2 (by decide)

/-- C1.  On every weighted input `w` arriving from collector `p`,
`Neurosoma::receive` performs exactly the spec's firing rule of §4.4,
with the code's resting level (`bias`) being the literal 1 and the
spec-side reset counter (absent from this struct) incremented exactly
when a pulse is emitted: the emitted value, the resulting accumulator
and the resulting hit register of the code step coincide with those of
the spec step started from the corresponding state, for every starting
state and every value of the spec-side reset counter. -/
theorem neurosoma_receive_matches_spec_rule (n : Neurosoma) (w : Int) (p : String) (r : Nat) :
    (n.receive w p).2 =
      (neurosomaSpecStep 1 n.connected_collectors
        ⟨n.accumulator, n.reported_collectors, r⟩ w p).2 ∧
    (n.receive w p).1.accumulator =
      (neurosomaSpecStep 1 n.connected_collectors
        ⟨n.accumulator, n.reported_collectors, r⟩ w p).1.accumulator ∧
    (n.receive w p).1.reported_collectors =
      (neurosomaSpecStep 1 n.connected_collectors
        ⟨n.accumulator, n.reported_collectors, r⟩ w p).1.hit_register ∧
    (n.receive w p).1.connected_collectors = n.connected_collectors ∧
    (neurosomaSpecStep 1 n.connected_collectors
        ⟨n.accumulator, n.reported_collectors, r⟩ w p).1.reset_counter =
      r + (if (n.receive w p).2.isSome then 1 else 0) := by
  unfold Neurosoma.receive neurosomaSpecStep Neurosoma.reset Neurosoma.registerSignal
    Neurosoma.countReferrals
  by_cases hp : p ∈ n.reported_collectors
  · simp [hp, Int.add_comm]
  · by_cases hc : n.connected_collectors.card ≤ n.reported_collectors.card + 1
    · simp [hp, hc]
    · simp [hp, hc]

/-- A two-neuron network whose input port 0 is already occupied:
`M0Z0` owns the existing connection of port 0, and `M0Z1` has a single
unconnected dendrite. -/
def busyPortNet : NetState :=
  ⟨"M0",
   [("M0Z0", ⟨"M0Z0", 1, [⟨some "M0I0", ⟨1, 1, 1⟩⟩]⟩),
    ("M0Z1", ⟨"M0Z1", 1, [⟨none, ⟨1, 1, 1⟩⟩]⟩)],
   [(0, ⟨"M0I0", 0⟩)]⟩

/-- C5 counterexample.  The claim says a `setup_input` call on a busy
external port returns `PortBusy` and leaves all runtime state
unchanged.  On `busyPortNet`, `setup_input(0, "M0Z1", 0)` does return
`PortBusy` — but the network state is not unchanged: the call first
connected neuron `M0Z1`'s port 0 (its dendrite now records the upstream
source `M0I0`), and only then hit the occupied-entry check. -/
theorem setup_input_busy_counterexample :
    (setupInput busyPortNet 0 "M0Z1" 0).2 = .error (.PortBusy "M0I0") ∧
    (setupInput busyPortNet 0 "M0Z1" 0).1 ≠ busyPortNet ∧
    (alistGet (setupInput busyPortNet 0 "M0Z1" 0).1.neurons "M0Z1").map
        (fun n => n.dendrites.map (·.connected)) =
      some [some "M0I0"] := by
  decide

/-- C5 amended.  When the external port is already present in the input
interface, `setup_input` always returns an error (either the error of
the neuron-side connect step performed first, or `PortBusy`), and the
input interface itself is left unchanged — but the neuron-side
connection attempted before the entry check is not rolled back. -/
theorem setup_input_busy_keeps_interface (s : NetState) (p : Nat) (nid : String) (np : Nat)
    (h : natGet s.input_interface p ≠ none) :
    (setupInput s p nid np).1.input_interface = s.input_interface ∧
    ∃ e, (setupInput s p nid np).2 = .error e := by
  simp only [setupInput]
  split
  · exact ⟨rfl, _, rfl⟩
  · split
    · exact ⟨rfl, _, rfl⟩
    · split
      · exact ⟨rfl, _, rfl⟩
      · next heq => exact absurd heq h

/-- C5 witness: the amended theorem applied to `busyPortNet` and its
busy port 0. -/
theorem setup_input_busy_keeps_interface_witness :
    (setupInput busyPortNet 0 "M0Z1" 0).1.input_interface = busyPortNet.input_interface ∧
    ∃ e, (setupInput busyPortNet 0 "M0Z1" 0).2 = .error e :=
  setup_input_busy_keeps_interface busyPortNet 0 "M0Z1" 0 (by decide)

/-- A single-neuron network whose neuron `M0Z0` has two unconnected
dendrites and no self-link. -/
def twoDendriteNet : NetState :=
  ⟨"M0", [("M0Z0", ⟨"M0Z0", 1, [⟨none, ⟨1, 1, 1⟩⟩, ⟨none, ⟨1, 1, 1⟩⟩]⟩)], []⟩

/-- C6 counterexample.  The claim says that when a neuron has at least
2 inputs and no prior self-link, the self-connection succeeds.  The
neuron `M0Z0` of `twoDendriteNet` has 2 inputs and no self-link, yet
`connect_neurons("M0Z0", "M0Z0", 5)` does not succeed: port 5 does not
exist, so the delegated connect fails with the port-not-found error. -/
theorem connect_self_counterexample :
    (alistGet twoDendriteNet.neurons "M0Z0").map
        (fun n => (n.dendrites.length, n.selfConnectedCount)) = some (2, 0) ∧
    (connectNeurons twoDendriteNet "M0Z0" "M0Z0" 5).2 = .error (.DendriteNotFound 5) ∧
    (connectNeurons twoDendriteNet "M0Z0" "M0Z0" 5).2 ≠ .ok () := by
  decide

/-- C6 amended.  For a registered neuron `x`,
`connect_neurons(x, x, p)` returns `ClosedLoop` whenever `x` has fewer
than 2 inputs or already has a self-link; when `x` has at least 2
inputs and no prior self-link, the self-connection succeeds provided
the destination port `p` exists and is not already connected. -/
theorem connect_self_rule (s : NetState) (x : NeuronState) (p : Nat)
    (hx : alistGet s.neurons x.id = some x) :
    ((x.dendrites.length < 2 ∨ 0 < x.selfConnectedCount) →
      (connectNeurons s x.id x.id p).2 = .error .ClosedLoop) ∧
    (∀ d, 2 ≤ x.dendrites.length → x.selfConnectedCount = 0 →
      x.dendrites[p]? = some d → d.connected = none →
      (connectNeurons s x.id x.id p).2 = .ok ()) := by
  constructor
  · intro hcl
    simp only [connectNeurons, hx, linkTo, if_true]
    rw [if_pos hcl]
  · intro d hlen hself hd hconn
    have hneg : ¬ (x.dendrites.length < 2 ∨ x.selfConnectedCount > 0) := by
      push_neg
      exact ⟨hlen, by omega⟩
    simp only [connectNeurons, hx, linkTo, if_true]
    rw [if_neg hneg]
    simp [NeuronState.connect, hd, hconn]

/-- C6 witness: the amended theorem applied to `twoDendriteNet` and the
valid free port 0. -/
theorem connect_self_rule_witness :
    (connectNeurons twoDendriteNet "M0Z0" "M0Z0" 0).2 = .ok () :=
  (connect_self_rule twoDendriteNet ⟨"M0Z0", 1, [⟨none, ⟨1, 1, 1⟩⟩, ⟨none, ⟨1, 1, 1⟩⟩]⟩ 0
      (by decide)).2
    ⟨none, ⟨1, 1, 1⟩⟩ (by decide) (by decide) (by decide) (by decide)

/-- C7.  Eleven successful `create_neuron` calls on a fresh network
produce the registry `{M0Z0, …, M0Z9, M0Z10}`.  On that state the code
picks the suffix following the *lexicographically* last key `M0Z9`,
namely 10, while the claim's rule (one plus the numeric maximum) gives
11 — and the twelfth call therefore fails with
`NeuronAlreadyExists("M0Z10")`. -/
theorem create_neuron_id_collision :
    ((createSeq freshNet 11).bind fun s => (createNeuron s 1 []).map (·.2)) =
      some (.error (.NeuronAlreadyExists "M0Z10")) ∧
    ((createSeq freshNet 11).map fun s => getAvailableNeuronId (s.neurons.map (·.1))) =
      some (some 10) ∧
    ((createSeq freshNet 11).map fun s => specNextNeuronSuffix (s.neurons.map (·.1))) =
      some 11 := by
  decide

/-- C10.  `create_neuron` with an empty list of input configurations
builds the neuron from the single default config `{capacity_max: 1,
regeneration: 1, weight: 1}`; a non-empty list is used as given, and
the effective list is never empty. -/
theorem create_neuron_default_input (s : NetState) (bias : Int)
    (cfgs : List InputCfg) (st : NetState) (n : NeuronState) :
    (createNeuron s bias cfgs = some (st, .ok n) →
      n.dendrites.map (·.config) = effectiveInputConfigs cfgs) ∧
    effectiveInputConfigs [] = [⟨1, 1, 1⟩] ∧
    (cfgs ≠ [] → effectiveInputConfigs cfgs = cfgs) ∧
    effectiveInputConfigs cfgs ≠ [] := by
  refine ⟨?_, rfl, ?_, ?_⟩
  · intro h
    simp only [createNeuron, Option.map_eq_some'] at h
    obtain ⟨avail, -, hf⟩ := h
    split at hf
    · exact Except.noConfusion (congrArg Prod.snd hf)
    · have h2 := congrArg Prod.snd hf
      simp only at h2
      obtain rfl := Except.ok.inj h2
      simp only [List.map_map]
      exact List.map_id _
  · intro hne
    simp [effectiveInputConfigs, hne]
  · simp only [effectiveInputConfigs]
    split
    · simp
    · next hne => simpa using hne

/-- Decoding a list of encoded elements recovers the list, given that
decoding inverts encoding elementwise. -/
theorem mapM_map_encode {α : Type} (enc : α → JVal) (dec : JVal → Option α)
    (h : ∀ x, dec (enc x) = some x) :
    ∀ xs : List α, List.mapM dec (xs.map enc) = some xs := by
  intro xs
  induction xs with
  | nil => rfl
  | cons x xs ih =>
    rw [List.map_cons, List.mapM_cons, h x, ih]
    rfl

/-- Decoding inverts encoding for `InputCfg`. -/
theorem decode_encode_inputCfg (c : InputCfg) :
    decodeInputCfg (encodeInputCfg c) = some c :=
  rfl

/-- Decoding inverts encoding for the neuron entry. -/
theorem decode_encode_neuronCfg (c : NeuronCfg) :
    decodeNeuronCfg (encodeNeuronCfg c) = some c := by
  have h : decodeArr decodeInputCfg (.arr (c.input_configs.map encodeInputCfg)) =
      some c.input_configs :=
    mapM_map_encode encodeInputCfg decodeInputCfg decode_encode_inputCfg c.input_configs
  simp [decodeNeuronCfg, encodeNeuronCfg, jGet, decodeStr, decodeNum, h]

/-- Decoding inverts encoding for `LinkCfg`. -/
theorem decode_encode_linkCfg : ∀ l : LinkCfg, decodeLinkCfg (encodeLinkCfg l) = some l
  | .Input _ _ _ => rfl
  | .Inner _ _ _ => rfl
  | .Output _ _ => rfl

/-- Decoding inverts encoding for `NetworkCfg`. -/
theorem decode_encode_networkCfg (c : NetworkCfg) :
    decodeNetworkCfg (encodeNetworkCfg c) = some c := by
  have hn : decodeArr decodeNeuronCfg (.arr (c.neurons.map encodeNeuronCfg)) = some c.neurons :=
    mapM_map_encode encodeNeuronCfg decodeNeuronCfg decode_encode_neuronCfg c.neurons
  have hl : decodeArr decodeLinkCfg (.arr (c.links.map encodeLinkCfg)) = some c.links :=
    mapM_map_encode encodeLinkCfg decodeLinkCfg decode_encode_linkCfg c.links
  simp [decodeNetworkCfg, encodeNetworkCfg, jGet, decodeNum, hn, hl]
  rfl

/-- C9.  Deserializing the serialization of any topology configuration
recovers the configuration, so its re-serialization agrees with the
first serialization byte for byte, under both the JSON and the YAML
printing of the serialized document. -/
theorem network_cfg_roundtrip (cfg : NetworkCfg) :
    decodeNetworkCfg (encodeNetworkCfg cfg) = some cfg ∧
    (decodeNetworkCfg (encodeNetworkCfg cfg)).map (fun c => jsonPrint (encodeNetworkCfg c)) =
      some (jsonPrint (encodeNetworkCfg cfg)) ∧
    (decodeNetworkCfg (encodeNetworkCfg cfg)).map (fun c => yamlPrint (encodeNetworkCfg c)) =
      some (yamlPrint (encodeNetworkCfg cfg)) := by
  have h := decode_encode_networkCfg cfg
  exact ⟨h, by simp [h], by simp [h]⟩

/-- C10 witness: a `create_neuron` call with the empty config list on a
fresh network yields the neuron `M0Z0` whose single input carries the
default configuration. -/
theorem create_neuron_default_input_witness :
    (⟨"M0Z0", 1, [⟨none, ⟨1, 1, 1⟩⟩]⟩ : NeuronState).dendrites.map (·.config) =
      effectiveInputConfigs [] :=
  (create_neuron_default_input freshNet 1 []
      ⟨"M0", [("M0Z0", ⟨"M0Z0", 1, [⟨none, ⟨1, 1, 1⟩⟩]⟩)], []⟩
      ⟨"M0Z0", 1, [⟨none, ⟨1, 1, 1⟩⟩]⟩).1
    (by decide)

end Runen
